import Mathlib

/-!
# Verification of the planetary-viewer camera and texture core

Shallow embedding of `src/camera.py` and `src/texture_generator.py` over the
real numbers.  3-vectors are a structure of three reals; numpy operations
(`np.clip`, `np.linalg.norm`, `np.cross`, elementwise arithmetic) are embedded
as the corresponding exact real operations.  Python floats are idealised as
reals; real division by zero is Lean's convention (`x / 0 = 0`), which only
matters at degenerate inputs called out explicitly in the theorems.
-/

open Real

/-- A 3-component vector of reals, embedding numpy 3-arrays. -/
structure Vec3 where
  x : ℝ
  y : ℝ
  z : ℝ

/-- Elementwise addition of numpy arrays. -/
def Vec3.add (a b : Vec3) : Vec3 := ⟨a.x + b.x, a.y + b.y, a.z + b.z⟩

/-- Scalar multiplication of a numpy array. -/
def Vec3.smul (k : ℝ) (v : Vec3) : Vec3 := ⟨k * v.x, k * v.y, k * v.z⟩

/-- `np.linalg.norm` of a 3-array: the Euclidean norm. -/
noncomputable def Vec3.norm (v : Vec3) : ℝ :=
  Real.sqrt (v.x ^ 2 + v.y ^ 2 + v.z ^ 2)

/-- `np.cross` of two 3-arrays. -/
def Vec3.cross (a b : Vec3) : Vec3 :=
  ⟨a.y * b.z - a.z * b.y, a.z * b.x - a.x * b.z, a.x * b.y - a.y * b.x⟩

/-- `np.zeros(3)`. -/
def Vec3.zero : Vec3 := ⟨0, 0, 0⟩

/-- `np.clip(x, lo, hi) = min(max(x, lo), hi)`. -/
def clip (x lo hi : ℝ) : ℝ := min (max x lo) hi

/-- The camera-relevant fields of `config.py`'s `Config` model. -/
structure Config where
  initial_distance : ℝ
  max_distance : ℝ
  mouse_sensitivity : ℝ
  zoom_speed : ℝ
  camera_speed : ℝ
  camera_boost_factor : ℝ
  planet_radius : ℝ

/-- The camera mode strings `'orbit'` and `'free'`. -/
inductive Mode where
  | orbit
  | free
deriving DecidableEq

/-- The mutable state of `camera.py`'s `Camera`, one field per attribute
set in `Camera.__init__`. -/
structure Camera where
  config : Config
  distance : ℝ
  yaw : ℝ
  pitch : ℝ
  position : Vec3
  target : Vec3
  up : Vec3
  mode : Mode
  speed : ℝ
  boost_factor : ℝ
  transition_progress : ℝ
  transition_duration : ℝ
  start_position : Vec3
  start_target : Vec3
  end_position : Vec3
  end_target : Vec3

namespace Camera

/-- `Camera.__init__(config)`. -/
def init (config : Config) : Camera :=
  { config := config
    distance := config.initial_distance
    yaw := 0
    pitch := 0
    position := ⟨0, 0, config.initial_distance⟩
    target := Vec3.zero
    up := ⟨0, 1, 0⟩
    mode := Mode.orbit
    speed := config.camera_speed
    boost_factor := config.camera_boost_factor
    transition_progress := 1
    transition_duration := 1
    start_position := ⟨0, 0, config.initial_distance⟩
    start_target := Vec3.zero
    end_position := ⟨0, 0, config.initial_distance⟩
    end_target := Vec3.zero }

/-- `Camera._get_forward_vector`. -/
noncomputable def get_forward_vector (c : Camera) : Vec3 :=
  ⟨Real.cos c.pitch * Real.sin c.yaw,
   Real.sin c.pitch,
   Real.cos c.pitch * Real.cos c.yaw⟩

/-- `Camera._update_position`: recompute `position` from `distance`, `yaw`,
`pitch` (orbit spherical coordinates). -/
noncomputable def update_position (c : Camera) : Camera :=
  { c with
    position :=
      ⟨c.distance * Real.cos c.pitch * Real.sin c.yaw,
       c.distance * Real.sin c.pitch,
       c.distance * Real.cos c.pitch * Real.cos c.yaw⟩ }

/-- `Camera._update_orbit(dx, dy)`. -/
noncomputable def update_orbit (c : Camera) (dx dy : ℝ) : Camera :=
  let c1 := { c with yaw := c.yaw + dx * c.config.mouse_sensitivity }
  let c2 := { c1 with
    pitch := clip (c1.pitch - dy * c1.config.mouse_sensitivity)
      (-(Real.pi / 2) + 0.1) (Real.pi / 2 - 0.1) }
  update_position c2

/-- `Camera._update_free(dx, dy)`. -/
noncomputable def update_free (c : Camera) (dx dy : ℝ) : Camera :=
  let c1 := { c with yaw := c.yaw - dx * c.config.mouse_sensitivity }
  let c2 := { c1 with
    pitch := clip (c1.pitch - dy * c1.config.mouse_sensitivity)
      (-(Real.pi / 2) + 0.1) (Real.pi / 2 - 0.1) }
  { c2 with target := c2.position.add (get_forward_vector c2) }

/-- `Camera._ease_in_out_cubic(t)`. -/
noncomputable def ease_in_out_cubic (t : ℝ) : ℝ :=
  if t < 0.5 then 4 * t * t * t else 1 - (-2 * t + 2) ^ 3 / 2

/-- `Camera._update_transition(dt)`. -/
noncomputable def update_transition (c : Camera) (dt : ℝ) : Camera :=
  if c.transition_progress < 1 then
    let p := min 1 (c.transition_progress + dt / c.transition_duration)
    let t := ease_in_out_cubic p
    { c with
      transition_progress := p
      position := (Vec3.smul (1 - t) c.start_position).add
        (Vec3.smul t c.end_position)
      target := (Vec3.smul (1 - t) c.start_target).add
        (Vec3.smul t c.end_target) }
  else c

/-- `Camera.update(dx, dy, dt)`. -/
noncomputable def update (c : Camera) (dx dy dt : ℝ) : Camera :=
  let c1 :=
    match c.mode with
    | Mode.orbit => update_orbit c dx dy
    | Mode.free => update_free c dx dy
  update_transition c1 dt

/-- `Camera.move(forward, right, up, boost)`. -/
noncomputable def move (c : Camera)
    (forward right upAmt : ℝ) (boost : Bool) : Camera :=
  match c.mode with
  | Mode.orbit => c
  | Mode.free =>
    let speed := c.speed * (if boost then c.boost_factor else 1)
    let forward_vec := get_forward_vector c
    let right_vec0 := Vec3.cross forward_vec c.up
    let right_vec := Vec3.smul (1 / right_vec0.norm) right_vec0
    let movement := ((Vec3.smul forward forward_vec).add
      (Vec3.smul right right_vec)).add (Vec3.smul upAmt c.up)
    { c with
      position := c.position.add (Vec3.smul speed movement)
      target := c.target.add (Vec3.smul speed movement) }

/-- `Camera.zoom(amount)`. -/
noncomputable def zoom (c : Camera) (amount : ℝ) : Camera :=
  match c.mode with
  | Mode.orbit =>
    let c1 := { c with distance := c.distance - amount * c.config.zoom_speed }
    let c2 := { c1 with
      distance := clip c1.distance (c1.config.planet_radius + 0.1)
        c1.config.max_distance }
    update_position c2
  | Mode.free => move c (amount * c.config.zoom_speed) 0 0 false

/-- `Camera.toggle_mode()`. -/
noncomputable def toggle_mode (c : Camera) : Camera :=
  let c1 :=
    match c.mode with
    | Mode.orbit =>
      { c with
        mode := Mode.free
        end_position := c.position
        end_target := c.target }
    | Mode.free =>
      let c2 := update_position
        { c with
          mode := Mode.orbit
          distance := c.config.initial_distance
          yaw := 0
          pitch := 0 }
      { c2 with
        end_position := c2.position
        end_target := Vec3.zero }
  { c1 with
    start_position := c1.position
    start_target := c1.target
    transition_progress := 0 }

/-- `Camera.check_collision(planet_radius)`. -/
noncomputable def check_collision (c : Camera) (planet_radius : ℝ) : Camera :=
  let distance_to_center := c.position.norm
  if distance_to_center < planet_radius + 0.1 then
    let direction := Vec3.smul (1 / distance_to_center) c.position
    let c1 := { c with position := Vec3.smul (planet_radius + 0.1) direction }
    match c1.mode with
    | Mode.orbit => { c1 with distance := planet_radius + 0.1 }
    | Mode.free => c1
  else c

end Camera

namespace TextureGenerator

/-- `TextureGenerator._create_seamless_noise(...)`.  The external 3-D simplex
noise function `snoise3` from the `noise` package is passed as an oracle; the
grid is the function sending in-range indices to the sampled value. -/
noncomputable def create_seamless_noise
    (snoise3 : ℝ → ℝ → ℝ → ℕ → ℝ → ℝ → ℝ)
    (width height : ℤ) (scale : ℝ) (octaves : ℕ)
    (persistence lacunarity : ℝ) : ℕ → ℕ → ℝ :=
  fun y x =>
    if (y : ℤ) < height ∧ (x : ℤ) < width then
      let theta := (x : ℝ) / (width : ℝ) * (2 * Real.pi)
      let phi := (y : ℝ) / (height : ℝ) * Real.pi
      snoise3 (Real.cos theta * Real.sin phi * scale)
        (Real.sin theta * Real.sin phi * scale)
        (Real.cos phi * scale) octaves persistence lacunarity
    else 0

/-- `array.min()` over a `height × width` grid (as the infimum of the finite
set of in-range values). -/
noncomputable def gridMin (g : ℕ → ℕ → ℝ) (height width : ℤ) : ℝ :=
  sInf {v : ℝ | ∃ y x : ℕ, (y : ℤ) < height ∧ (x : ℤ) < width ∧ g y x = v}

/-- `array.max()` over a `height × width` grid. -/
noncomputable def gridMax (g : ℕ → ℕ → ℝ) (height width : ℤ) : ℝ :=
  sSup {v : ℝ | ∃ y x : ℕ, (y : ℤ) < height ∧ (x : ℤ) < width ∧ g y x = v}

/-- `TextureGenerator._create_colored_texture(noise, color1, color2)`.  The
per-texel random jitter `np.random.uniform(0.99, 1.01, 3)` is passed as the
oracle `variation`; `np.clip(..., 0, 255).astype(np.uint8)` is floor after
clipping (the clipped value is nonnegative). -/
noncomputable def create_colored_texture (noise : ℕ → ℕ → ℝ)
    (color1 color2 : Fin 3 → ℝ) (variation : ℕ → ℕ → Fin 3 → ℝ) :
    ℕ → ℕ → Fin 3 → ℤ :=
  fun y x ch =>
    let value := noise y x
    let color := color1 ch * (1 - value) + color2 ch * value
    Int.floor (clip (color * variation y x ch) 0 255)

/-- `TextureGenerator.generate(width, height)`.  The ambient randomness
(`np.random.randint(100, 200, 3)` for the two palette colors and the
per-texel jitter) is passed as the oracles `color1`, `color2`, `variation`. -/
noncomputable def generate (snoise3 : ℝ → ℝ → ℝ → ℕ → ℝ → ℝ → ℝ)
    (color1 color2 : Fin 3 → ℝ) (variation : ℕ → ℕ → Fin 3 → ℝ)
    (width height : ℤ) : Except String (ℕ → ℕ → Fin 3 → ℤ) :=
  if width ≤ 0 ∨ height ≤ 0 then
    Except.error "Width and height must be positive integers."
  else
    let base := create_seamless_noise snoise3 width height 4.0 6 0.5 2.0
    let detail := create_seamless_noise snoise3 width height 20.0 8 0.6 2.0
    let combined := fun y x => base y x * 0.7 + detail y x * 0.3
    let lo := gridMin combined height width
    let hi := gridMax combined height width
    let normalized := fun y x => (combined y x - lo) / (hi - lo)
    Except.ok (create_colored_texture normalized color1 color2 variation)

end TextureGenerator

/-- One invocation of a public `Camera` operation with its arguments. -/
inductive CamOp where
  | update (dx dy dt : ℝ)
  | move (forward right upAmt : ℝ) (boost : Bool)
  | zoom (amount : ℝ)
  | toggle_mode
  | check_collision (planet_radius : ℝ)

/-- Run one public operation on the camera. -/
noncomputable def applyOp (c : Camera) : CamOp → Camera
  | CamOp.update dx dy dt => c.update dx dy dt
  | CamOp.move f r u b => c.move f r u b
  | CamOp.zoom a => c.zoom a
  | CamOp.toggle_mode => c.toggle_mode
  | CamOp.check_collision pr => c.check_collision pr

/-- Run a sequence of public operations on the camera. -/
noncomputable def applyOps (c : Camera) (ops : List CamOp) : Camera :=
  ops.foldl applyOp c

/-- The orbit-mode consistency invariant of `camera.py`: `position` is the
spherical-coordinates point determined by `distance`, `yaw`, `pitch`
(established by `_update_position`). -/
noncomputable def orbitConsistent (c : Camera) : Prop :=
  c.position = ⟨c.distance * Real.cos c.pitch * Real.sin c.yaw,
    c.distance * Real.sin c.pitch,
    c.distance * Real.cos c.pitch * Real.cos c.yaw⟩

/-- The free-mode consistency invariant of `camera.py`: `target` is
`position + forward` (established by `_update_free`). -/
noncomputable def freeConsistent (c : Camera) : Prop :=
  c.target = c.position.add (Camera.get_forward_vector c)

/-- A concrete configuration matching `config.py`'s defaults. -/
def cfg0 : Config :=
  { initial_distance := 30
    max_distance := 50
    mouse_sensitivity := 0.005
    zoom_speed := 0.5
    camera_speed := 0.1
    camera_boost_factor := 2
    planet_radius := 10 }

/-- A free-mode camera away from the reset orbit pose, with a nonzero
target. -/
def camFree0 : Camera :=
  { Camera.init cfg0 with
    mode := Mode.free
    position := ⟨5, 0, 0⟩
    target := ⟨1, 2, 3⟩ }

/-- A free-mode camera sitting exactly at the planet center. -/
def camZero : Camera :=
  { Camera.init cfg0 with
    mode := Mode.free
    position := Vec3.zero }

/-- An orbit-mode camera inside the collision sphere of a radius-10
planet. -/
def camNear : Camera :=
  { Camera.init cfg0 with
    position := ⟨0, 0, 5⟩ }

/-- The freshly initialised camera after one `toggle_mode` (Orbit→Free). -/
noncomputable def camT1 : Camera := (Camera.init cfg0).toggle_mode

/-- `camT1` after a horizontal drag `update(100, 0, 1)` whose `dt` completes
the transition in a single tick. -/
noncomputable def camT2 : Camera := camT1.update 100 0 1

/-! ## Helper lemmas -/

lemma clip_le_hi (x lo hi : ℝ) : clip x lo hi ≤ hi := min_le_right _ _

lemma lo_le_clip (x lo hi : ℝ) (h : lo ≤ hi) : lo ≤ clip x lo hi :=
  le_min (le_max_right _ _) h

lemma clip_eq_self (x lo hi : ℝ) (h1 : lo ≤ x) (h2 : x ≤ hi) :
    clip x lo hi = x := by
  unfold clip
  rw [max_eq_left h1, min_eq_left h2]

lemma pitch_lo_le_hi : -(Real.pi / 2) + 0.1 ≤ Real.pi / 2 - 0.1 := by
  have h := Real.pi_gt_three
  norm_num
  linarith

lemma Vec3.norm_smul (k : ℝ) (v : Vec3) :
    (Vec3.smul k v).norm = |k| * v.norm := by
  unfold Vec3.norm Vec3.smul
  have : (k * v.x) ^ 2 + (k * v.y) ^ 2 + (k * v.z) ^ 2
      = k ^ 2 * (v.x ^ 2 + v.y ^ 2 + v.z ^ 2) := by ring
  rw [this, Real.sqrt_mul (sq_nonneg k), Real.sqrt_sq_eq_abs]

lemma Vec3.norm_z (d : ℝ) : Vec3.norm ⟨0, 0, d⟩ = |d| := by
  unfold Vec3.norm
  simp [Real.sqrt_sq_eq_abs]

/-- Norm of the orbit spherical-coordinates position for nonnegative radius. -/
lemma norm_spherical (d y p : ℝ) (hd : 0 ≤ d) :
    Vec3.norm ⟨d * Real.cos p * Real.sin y, d * Real.sin p,
      d * Real.cos p * Real.cos y⟩ = d := by
  unfold Vec3.norm
  have hexp : (d * Real.cos p * Real.sin y) ^ 2 + (d * Real.sin p) ^ 2
      + (d * Real.cos p * Real.cos y) ^ 2
      = d ^ 2 * ((Real.sin y ^ 2 + Real.cos y ^ 2) * Real.cos p ^ 2
        + Real.sin p ^ 2) := by ring
  rw [hexp, Real.sin_sq_add_cos_sq]
  have : d ^ 2 * (1 * Real.cos p ^ 2 + Real.sin p ^ 2) = d ^ 2 := by
    have := Real.sin_sq_add_cos_sq p
    nlinarith [this]
  rw [this, Real.sqrt_sq hd]

lemma check_collision_of_far (c : Camera) (pr : ℝ)
    (h : ¬ c.position.norm < pr + 0.1) :
    c.check_collision pr = c := by
  unfold Camera.check_collision
  dsimp only
  rw [if_neg h]

lemma update_transition_noop (c : Camera) (dt : ℝ)
    (h : 1 ≤ c.transition_progress) :
    c.update_transition dt = c := by
  unfold Camera.update_transition
  rw [if_neg (not_lt.mpr h)]

lemma update_eq_update_orbit (c : Camera) (dx dy dt : ℝ)
    (hm : c.mode = Mode.orbit) (hp : 1 ≤ c.transition_progress) :
    c.update dx dy dt = c.update_orbit dx dy := by
  unfold Camera.update
  rw [hm]
  dsimp only
  exact update_transition_noop _ dt hp

lemma update_eq_update_free (c : Camera) (dx dy dt : ℝ)
    (hm : c.mode = Mode.free) (hp : 1 ≤ c.transition_progress) :
    c.update dx dy dt = c.update_free dx dy := by
  unfold Camera.update
  rw [hm]
  dsimp only
  exact update_transition_noop _ dt hp

lemma update_position_norm (c : Camera) (h : 0 ≤ c.distance) :
    c.update_position.position.norm = c.distance := by
  unfold Camera.update_position
  exact norm_spherical _ _ _ h

lemma update_orbit_norm (c : Camera) (dx dy : ℝ) (h : 0 ≤ c.distance) :
    (c.update_orbit dx dy).position.norm = (c.update_orbit dx dy).distance := by
  unfold Camera.update_orbit
  dsimp only
  exact update_position_norm _ h

/-- In the firing branch (`progress < 1`), `_update_transition` advances the
progress and lerps position and target between the stored poses. -/
lemma update_transition_fire (c : Camera) (dt : ℝ)
    (h : c.transition_progress < 1) :
    c.update_transition dt
      = { c with
          transition_progress :=
            min 1 (c.transition_progress + dt / c.transition_duration)
          position := (Vec3.smul (1 - Camera.ease_in_out_cubic
              (min 1 (c.transition_progress + dt / c.transition_duration)))
            c.start_position).add
            (Vec3.smul (Camera.ease_in_out_cubic
              (min 1 (c.transition_progress + dt / c.transition_duration)))
            c.end_position)
          target := (Vec3.smul (1 - Camera.ease_in_out_cubic
              (min 1 (c.transition_progress + dt / c.transition_duration)))
            c.start_target).add
            (Vec3.smul (Camera.ease_in_out_cubic
              (min 1 (c.transition_progress + dt / c.transition_duration)))
            c.end_target) } := by
  unfold Camera.update_transition
  rw [if_pos h]

lemma cos_mul_cos_ge (a b : ℝ) : -1 ≤ Real.cos a * Real.cos b := by
  nlinarith [Real.neg_one_le_cos a, Real.cos_le_one a,
    Real.neg_one_le_cos b, Real.cos_le_one b]

lemma update_free_target_z (c : Camera) (dx dy : ℝ) :
    (c.update_free dx dy).target.z = c.position.z
      + Real.cos (clip (c.pitch - dy * c.config.mouse_sensitivity)
          (-(Real.pi / 2) + 0.1) (Real.pi / 2 - 0.1))
        * Real.cos (c.yaw - dx * c.config.mouse_sensitivity) := rfl

/-- In the triggering branch, `check_collision` rescales `position`, leaves
`target` alone, and (in orbit mode) sets `distance` to the boundary. -/
lemma check_collision_clamp_parts (c : Camera) (pr : ℝ)
    (hlt : c.position.norm < pr + 0.1) :
    (c.check_collision pr).position
      = Vec3.smul (pr + 0.1) (Vec3.smul (1 / c.position.norm) c.position)
    ∧ (c.check_collision pr).target = c.target
    ∧ (c.mode = Mode.orbit → (c.check_collision pr).distance = pr + 0.1) := by
  unfold Camera.check_collision
  dsimp only
  rw [if_pos hlt]
  refine ⟨?_, ?_, ?_⟩
  · cases c.mode <;> rfl
  · cases c.mode <;> rfl
  · intro hm
    rw [hm]

/-! ## Claims -/

/-- C6: the easing function computes `4t³` for `t < 0.5` and
`1 - (-2t+2)³/2` otherwise, and `f(0) = 0`, `f(1) = 1`, `f(0.5) = 0.5`
exactly. -/
theorem ease_in_out_cubic_spec :
    (∀ t : ℝ, t < 0.5 → Camera.ease_in_out_cubic t = 4 * t ^ 3) ∧
    (∀ t : ℝ, ¬ t < 0.5 →
      Camera.ease_in_out_cubic t = 1 - (-2 * t + 2) ^ 3 / 2) ∧
    Camera.ease_in_out_cubic 0 = 0 ∧
    Camera.ease_in_out_cubic 1 = 1 ∧
    Camera.ease_in_out_cubic 0.5 = 0.5 := by
  refine ⟨fun t ht => ?_, fun t ht => ?_, ?_, ?_, ?_⟩ <;>
    unfold Camera.ease_in_out_cubic
  · rw [if_pos ht]; ring
  · rw [if_neg ht]
  · rw [if_pos (by norm_num)]; ring
  · rw [if_neg (by norm_num)]; norm_num
  · rw [if_neg (by norm_num)]; norm_num

/-- Witness for C6 at `t = 1/4`. -/
theorem ease_in_out_cubic_spec_witness :
    Camera.ease_in_out_cubic 0.25 = 4 * (0.25 : ℝ) ^ 3 :=
  ease_in_out_cubic_spec.1 0.25 (by norm_num)

lemma update_transition_pitch (c : Camera) (dt : ℝ) :
    (c.update_transition dt).pitch = c.pitch := by
  unfold Camera.update_transition
  split <;> rfl

lemma update_orbit_pitch (c : Camera) (dx dy : ℝ) :
    (c.update_orbit dx dy).pitch
      = clip (c.pitch - dy * c.config.mouse_sensitivity)
          (-(Real.pi / 2) + 0.1) (Real.pi / 2 - 0.1) := rfl

lemma update_free_pitch (c : Camera) (dx dy : ℝ) :
    (c.update_free dx dy).pitch
      = clip (c.pitch - dy * c.config.mouse_sensitivity)
          (-(Real.pi / 2) + 0.1) (Real.pi / 2 - 0.1) := rfl

/-- C5: after the clamping step inside every `update` call (in either mode),
the pitch satisfies `-π/2 < pitch < π/2` strictly, for all pointer deltas
and every prior pitch value. -/
theorem update_pitch_strictly_bounded (c : Camera) (dx dy dt : ℝ) :
    -(Real.pi / 2) < (c.update dx dy dt).pitch ∧
    (c.update dx dy dt).pitch < Real.pi / 2 := by
  have hpi := Real.pi_gt_three
  obtain ⟨z, hz⟩ : ∃ z, (c.update dx dy dt).pitch
      = clip z (-(Real.pi / 2) + 0.1) (Real.pi / 2 - 0.1) := by
    unfold Camera.update
    rw [update_transition_pitch]
    cases c.mode
    · exact ⟨_, update_orbit_pitch c dx dy⟩
    · exact ⟨_, update_free_pitch c dx dy⟩
  rw [hz]
  constructor
  · have := lo_le_clip z _ _ pitch_lo_le_hi
    linarith
  · have := clip_le_hi z (-(Real.pi / 2) + 0.1) (Real.pi / 2 - 0.1)
    linarith

/-- C10: whenever the position's norm is at least `planet_radius + 0.1`,
`check_collision` leaves the entire camera state unchanged. -/
theorem check_collision_noop (c : Camera) (pr : ℝ)
    (h : pr + 0.1 ≤ c.position.norm) :
    c.check_collision pr = c :=
  check_collision_of_far c pr (not_lt.mpr h)

/-- Witness for C10: the freshly initialised camera at distance 30 is outside
the collision sphere of a radius-10 planet. -/
theorem check_collision_noop_witness :
    (Camera.init cfg0).check_collision 10 = Camera.init cfg0 := by
  apply check_collision_noop
  show (10 : ℝ) + 0.1 ≤ Vec3.norm ⟨0, 0, (30 : ℝ)⟩
  rw [Vec3.norm_z]
  norm_num

/-- C8: for nonpositive width or height, `TextureGenerator.generate` fails
with the input-validation error, independently of the noise function and of
every source of randomness (so no noise or color computation can influence
the outcome). -/
theorem generate_invalid_dims (snoise3 : ℝ → ℝ → ℝ → ℕ → ℝ → ℝ → ℝ)
    (color1 color2 : Fin 3 → ℝ) (variation : ℕ → ℕ → Fin 3 → ℝ)
    (width height : ℤ) (h : width ≤ 0 ∨ height ≤ 0) :
    TextureGenerator.generate snoise3 color1 color2 variation width height
      = Except.error "Width and height must be positive integers." := by
  unfold TextureGenerator.generate
  rw [if_pos h]

/-- Witness for C8 at `width = 0`, `height = 5`. -/
theorem generate_invalid_dims_witness :
    TextureGenerator.generate (fun _ _ _ _ _ _ => 0) (fun _ => 0)
      (fun _ => 0) (fun _ _ _ => 0) 0 5
      = Except.error "Width and height must be positive integers." :=
  generate_invalid_dims _ _ _ _ 0 5 (Or.inl le_rfl)

lemma update_transition_up (c : Camera) (dt : ℝ) :
    (c.update_transition dt).up = c.up := by
  unfold Camera.update_transition
  split <;> rfl

lemma update_up (c : Camera) (dx dy dt : ℝ) :
    (c.update dx dy dt).up = c.up := by
  unfold Camera.update
  rw [update_transition_up]
  cases c.mode <;> rfl

lemma move_up (c : Camera) (f r u : ℝ) (b : Bool) :
    (c.move f r u b).up = c.up := by
  unfold Camera.move
  cases c.mode <;> rfl

lemma zoom_up (c : Camera) (a : ℝ) : (c.zoom a).up = c.up := by
  unfold Camera.zoom
  cases c.mode
  · rfl
  · exact move_up c _ 0 0 false

lemma toggle_mode_up (c : Camera) : c.toggle_mode.up = c.up := by
  unfold Camera.toggle_mode
  cases c.mode <;> rfl

lemma check_collision_up (c : Camera) (pr : ℝ) :
    (c.check_collision pr).up = c.up := by
  unfold Camera.check_collision
  dsimp only
  split
  · cases c.mode <;> rfl
  · rfl

lemma applyOp_up (c : Camera) (op : CamOp) : (applyOp c op).up = c.up := by
  cases op
  · exact update_up ..
  · exact move_up ..
  · exact zoom_up ..
  · exact toggle_mode_up ..
  · exact check_collision_up ..

/-- C9: every sequence of public camera operations leaves `up` at its
initial value `(0, 1, 0)`. -/
theorem up_never_changes (cfg : Config) (ops : List CamOp) :
    (applyOps (Camera.init cfg) ops).up = ⟨0, 1, 0⟩ := by
  have key : ∀ (ops : List CamOp) (c : Camera),
      (applyOps c ops).up = c.up := by
    intro ops
    induction ops with
    | nil => intro c; rfl
    | cons op rest ih =>
      intro c
      show (applyOps (applyOp c op) rest).up = c.up
      rw [ih, applyOp_up]
  rw [key]
  rfl

/-- C7: with `up = (0,1,0)` and the pitch in the clamped range
`[-π/2+0.1, π/2-0.1]`, the cross product `forward × up` computed inside
`move` has strictly positive norm, so `move`'s normalization never divides
by zero. -/
theorem move_cross_norm_pos (c : Camera)
    (hup : c.up = ⟨0, 1, 0⟩)
    (hlo : -(Real.pi / 2) + 0.1 ≤ c.pitch)
    (hhi : c.pitch ≤ Real.pi / 2 - 0.1) :
    0 < (Vec3.cross (Camera.get_forward_vector c) c.up).norm := by
  have hpi := Real.pi_gt_three
  have hcos : 0 < Real.cos c.pitch :=
    Real.cos_pos_of_mem_Ioo ⟨by linarith, by linarith⟩
  rw [hup]
  unfold Camera.get_forward_vector Vec3.cross Vec3.norm
  dsimp only
  have hval : (Real.sin c.pitch * 0 - Real.cos c.pitch * Real.cos c.yaw * 1) ^ 2
      + (Real.cos c.pitch * Real.cos c.yaw * 0
        - Real.cos c.pitch * Real.sin c.yaw * 0) ^ 2
      + (Real.cos c.pitch * Real.sin c.yaw * 1 - Real.sin c.pitch * 0) ^ 2
      = Real.cos c.pitch ^ 2 := by
    have h := Real.sin_sq_add_cos_sq c.yaw
    nlinarith [h]
  rw [hval, Real.sqrt_sq hcos.le]
  exact hcos

/-- Witness for C7 at the freshly initialised camera (pitch 0). -/
theorem move_cross_norm_pos_witness :
    0 < (Vec3.cross (Camera.get_forward_vector (Camera.init cfg0))
      (Camera.init cfg0).up).norm := by
  have hpi := Real.pi_gt_three
  exact move_cross_norm_pos (Camera.init cfg0) rfl
    (by show -(Real.pi / 2) + 0.1 ≤ (0 : ℝ); linarith)
    (by show (0 : ℝ) ≤ Real.pi / 2 - 0.1; linarith)

/-- C4 counterexample: a camera sitting exactly at the planet center has
position norm `0 < planet_radius + 0.1`, yet after `check_collision` its
position norm is not `planet_radius + 0.1` (the direction `position / 0` is
degenerate; numpy produces NaN there, the real-valued embedding `0`). -/
theorem check_collision_clamp_counterexample :
    camZero.position.norm < 1 + 0.1 ∧
    (camZero.check_collision 1).position.norm ≠ 1 + 0.1 := by
  have hn : camZero.position.norm = 0 := by
    show Vec3.norm Vec3.zero = 0
    unfold Vec3.norm Vec3.zero
    simp
  constructor
  · rw [hn]; norm_num
  · have hproj := check_collision_clamp_parts camZero 1 (by rw [hn]; norm_num)
    rw [hproj.1, Vec3.norm_smul, Vec3.norm_smul, hn]
    norm_num

/-- C4 amended: for every camera whose position is strictly between the
center (norm `> 0`) and the collision boundary, `check_collision` rescales
the position to norm exactly `planet_radius + 0.1` along the same positive
direction from the origin, and in orbit mode resynchronizes `distance`. -/
theorem check_collision_clamp_amended (c : Camera) (pr : ℝ)
    (hpos : 0 < c.position.norm)
    (hlt : c.position.norm < pr + 0.1) :
    (c.check_collision pr).position.norm = pr + 0.1 ∧
    (c.check_collision pr).position
      = Vec3.smul ((pr + 0.1) / c.position.norm) c.position ∧
    0 < (pr + 0.1) / c.position.norm ∧
    (c.mode = Mode.orbit → (c.check_collision pr).distance = pr + 0.1) := by
  obtain ⟨hp, ht, hd⟩ := check_collision_clamp_parts c pr hlt
  have hpr : (0 : ℝ) < pr + 0.1 := lt_trans hpos hlt
  have hne : c.position.norm ≠ 0 := ne_of_gt hpos
  have hsm : Vec3.smul (pr + 0.1) (Vec3.smul (1 / c.position.norm) c.position)
      = Vec3.smul ((pr + 0.1) / c.position.norm) c.position := by
    unfold Vec3.smul
    simp only [Vec3.mk.injEq]
    exact ⟨by ring, by ring, by ring⟩
  have hk : 0 < (pr + 0.1) / c.position.norm := div_pos hpr hpos
  refine ⟨?_, by rw [hp, hsm], hk, hd⟩
  rw [hp, hsm, Vec3.norm_smul, abs_of_pos hk, div_mul_cancel₀ _ hne]

/-- Witness for C4 amended: the camera at `(0,0,5)` is clamped to norm
`10.1` by `check_collision 10`. -/
theorem check_collision_clamp_amended_witness :
    (camNear.check_collision 10).position.norm = 10 + 0.1 := by
  have h5 : camNear.position.norm = 5 := by
    show Vec3.norm ⟨0, 0, 5⟩ = 5
    rw [Vec3.norm_z]
    norm_num
  exact (check_collision_clamp_amended camNear 10 (by rw [h5]; norm_num)
    (by rw [h5]; norm_num)).1

/-- C1 counterexample: toggling Free→Orbit from position `(5,0,0)` records
`start_position = (0,0,30)` (the already-reset orbit pose), not the
pre-toggle position, because `_update_position` runs before
`start_position` is copied. -/
theorem toggle_mode_start_pose_counterexample :
    camFree0.toggle_mode.start_position ≠ camFree0.position := by
  intro h
  have hx0 : camFree0.toggle_mode.start_position.x = 0 := by
    show cfg0.initial_distance * Real.cos 0 * Real.sin 0 = 0
    simp
  rw [h] at hx0
  have : (5 : ℝ) = 0 := hx0
  norm_num at this

/-- C1 amended: both toggle directions start a transition with
`progress = 0` to the computed end-pose, and the start target is the
pre-toggle target; the start position is the pre-toggle position in the
Orbit→Free direction, but in the Free→Orbit direction it is the freshly
reset orbit position `(0,0,initial_distance)` (which coincides with the
end position), not the pre-toggle position. -/
theorem toggle_mode_transition_amended (c : Camera) :
    (c.mode = Mode.orbit →
      c.toggle_mode.mode = Mode.free ∧
      c.toggle_mode.start_position = c.position ∧
      c.toggle_mode.start_target = c.target ∧
      c.toggle_mode.end_position = c.position ∧
      c.toggle_mode.end_target = c.target ∧
      c.toggle_mode.transition_progress = 0) ∧
    (c.mode = Mode.free →
      c.toggle_mode.mode = Mode.orbit ∧
      c.toggle_mode.start_target = c.target ∧
      c.toggle_mode.end_target = Vec3.zero ∧
      c.toggle_mode.start_position = c.toggle_mode.end_position ∧
      c.toggle_mode.end_position = ⟨0, 0, c.config.initial_distance⟩ ∧
      c.toggle_mode.transition_progress = 0) := by
  constructor <;> intro hm <;>
    (unfold Camera.toggle_mode Camera.update_position; rw [hm]; dsimp only)
  · exact ⟨rfl, rfl, rfl, rfl, rfl, rfl⟩
  · refine ⟨rfl, rfl, rfl, rfl, ?_, rfl⟩
    simp [Vec3.mk.injEq]

/-- Witness for C1 amended, at a freshly initialised (orbit-mode) camera. -/
theorem toggle_mode_transition_amended_witness :
    (Camera.init cfg0).toggle_mode.start_position
      = (Camera.init cfg0).position :=
  ((toggle_mode_transition_amended (Camera.init cfg0)).1 rfl).2.1

/-- C2 counterexample: toggling Free→Orbit from a free camera with target
`(1,2,3)` yields a camera in orbit mode whose target is not the origin
(the target only reaches the origin through the eased transition). -/
theorem orbit_invariant_counterexample :
    camFree0.toggle_mode.mode = Mode.orbit ∧
    camFree0.toggle_mode.target ≠ Vec3.zero := by
  refine ⟨rfl, ?_⟩
  intro h
  have h1 : camFree0.toggle_mode.target.x = 1 := rfl
  rw [h] at h1
  have h0 : (0 : ℝ) = 1 := h1
  norm_num at h0

/-- C2 amended: in orbit mode with a completed transition
(`progress ≥ 1`), target already at the origin, position on the orbit
sphere of positive radius, and nonnegative configured radii, each of
`update`, `zoom` and `check_collision` re-establishes
`‖position‖ = distance` and `target = origin`.  (`toggle_mode` and
in-flight transitions violate the original claim.) -/
theorem orbit_invariant_amended (c : Camera) (dx dy dt a pr : ℝ)
    (hmode : c.mode = Mode.orbit)
    (htarget : c.target = Vec3.zero)
    (hprog : 1 ≤ c.transition_progress)
    (hdist : 0 < c.distance)
    (hnorm : c.position.norm = c.distance)
    (hpr : 0 ≤ c.config.planet_radius)
    (hmax : 0 ≤ c.config.max_distance) :
    ((c.update dx dy dt).position.norm = (c.update dx dy dt).distance
      ∧ (c.update dx dy dt).target = Vec3.zero) ∧
    ((c.zoom a).position.norm = (c.zoom a).distance
      ∧ (c.zoom a).target = Vec3.zero) ∧
    ((c.check_collision pr).position.norm = (c.check_collision pr).distance
      ∧ (c.check_collision pr).target = Vec3.zero) := by
  refine ⟨?_, ?_, ?_⟩
  · rw [update_eq_update_orbit c dx dy dt hmode hprog]
    exact ⟨update_orbit_norm c dx dy hdist.le, htarget⟩
  · unfold Camera.zoom
    rw [hmode]
    dsimp only
    constructor
    · apply update_position_norm
      show (0 : ℝ) ≤ clip (c.distance - a * c.config.zoom_speed)
        (c.config.planet_radius + 0.1) c.config.max_distance
      exact le_min (le_trans (by linarith) (le_max_right _ _)) hmax
    · exact htarget
  · by_cases hlt : c.position.norm < pr + 0.1
    · obtain ⟨hp, ht, hd⟩ := check_collision_clamp_parts c pr hlt
      have hpos : 0 < c.position.norm := by rw [hnorm]; exact hdist
      have hpr1 : (0 : ℝ) < pr + 0.1 := lt_trans hpos hlt
      constructor
      · rw [hp, hd hmode, Vec3.norm_smul, Vec3.norm_smul, hnorm,
          abs_of_pos hpr1, one_div, abs_inv, abs_of_pos hdist,
          inv_mul_cancel₀ (ne_of_gt hdist), mul_one]
      · rw [ht]
        exact htarget
    · rw [check_collision_of_far c pr hlt]
      exact ⟨hnorm, htarget⟩

/-- Witness for C2 amended, at the freshly initialised camera. -/
theorem orbit_invariant_amended_witness :
    ((Camera.init cfg0).update 0 0 0).target = Vec3.zero := by
  have h30 : (Camera.init cfg0).position.norm = (Camera.init cfg0).distance := by
    show Vec3.norm ⟨0, 0, 30⟩ = (30 : ℝ)
    rw [Vec3.norm_z]
    norm_num
  exact ((orbit_invariant_amended (Camera.init cfg0) 0 0 0 0 10 rfl rfl le_rfl
    (by show (0 : ℝ) < 30; norm_num) h30
    (by show (0 : ℝ) ≤ 10; norm_num)
    (by show (0 : ℝ) ≤ 50; norm_num)).1).2

/-- C3 counterexample: starting from the initial camera, toggle to free
mode and drag `update(100, 0, 1)`; the tick completes the transition
(`progress = 1`) and the final lerp snaps `target` back to the origin,
while the drag left `yaw = -0.5`.  The next `update(0, 0, 1)` with zero
deltas recomputes `target = position + forward` and therefore changes the
pose, contradicting the claim. -/
theorem update_after_transition_counterexample :
    camT2.transition_progress = 1 ∧
    (camT2.update 0 0 1).target ≠ camT2.target := by
  have hb : camT2
      = Camera.update_transition (Camera.update_free camT1 100 0) 1 := rfl
  have hblt : (Camera.update_free camT1 100 0).transition_progress < 1 := by
    show (0 : ℝ) < 1
    norm_num
  have hfire := update_transition_fire (Camera.update_free camT1 100 0) 1 hblt
  have hprogT2 : camT2.transition_progress = 1 := by
    rw [hb, hfire]
    show min 1 ((0 : ℝ) + 1 / 1) = 1
    norm_num
  refine ⟨hprogT2, ?_⟩
  have hmodeT2 : camT2.mode = Mode.free := by
    rw [hb, hfire]
    rfl
  have hstart : (Camera.update_free camT1 100 0).start_target = Vec3.zero := rfl
  have hend : (Camera.update_free camT1 100 0).end_target = Vec3.zero := rfl
  have htgtz : camT2.target.z = 0 := by
    rw [hb, hfire]
    dsimp only
    rw [hstart, hend]
    unfold Vec3.smul Vec3.add Vec3.zero
    dsimp only
    ring
  have hsp : (Camera.update_free camT1 100 0).start_position
      = ⟨0, 0, (30 : ℝ)⟩ := rfl
  have hep : (Camera.update_free camT1 100 0).end_position
      = ⟨0, 0, (30 : ℝ)⟩ := rfl
  have hposz : camT2.position.z = 30 := by
    rw [hb, hfire]
    dsimp only
    rw [hsp, hep]
    unfold Vec3.smul Vec3.add
    dsimp only
    ring
  intro h
  have hz := congrArg Vec3.z h
  rw [update_eq_update_free camT2 0 0 1 hmodeT2 (le_of_eq hprogT2.symm)] at hz
  rw [update_free_target_z, hposz, htgtz] at hz
  obtain ⟨q, hq0, hq1⟩ : ∃ q : ℝ, (30 : ℝ) + q = 0 ∧ -1 ≤ q :=
    ⟨_, hz, cos_mul_cos_ge _ _⟩
  linarith

/-- C3 amended: once the transition has completed (`progress ≥ 1`), an `update`
with `dx = dy = 0` and any `dt ≥ 0` leaves `position`, `target`, `up` (and
the progress itself) unchanged, for every camera satisfying the clamped
pitch range and the mode consistency invariant the code maintains. -/
theorem update_noop_after_transition (c : Camera) (dt : ℝ)
    (hprog : 1 ≤ c.transition_progress)
    (hdt : 0 ≤ dt)
    (hlo : -(Real.pi / 2) + 0.1 ≤ c.pitch)
    (hhi : c.pitch ≤ Real.pi / 2 - 0.1)
    (horbit : c.mode = Mode.orbit → orbitConsistent c)
    (hfree : c.mode = Mode.free → freeConsistent c) :
    (c.update 0 0 dt).position = c.position ∧
    (c.update 0 0 dt).target = c.target ∧
    (c.update 0 0 dt).up = c.up ∧
    (c.update 0 0 dt).transition_progress = c.transition_progress := by
  have hclip : clip (c.pitch - 0 * c.config.mouse_sensitivity)
      (-(Real.pi / 2) + 0.1) (Real.pi / 2 - 0.1) = c.pitch := by
    rw [show c.pitch - 0 * c.config.mouse_sensitivity = c.pitch by ring]
    exact clip_eq_self _ _ _ hlo hhi
  cases hm : c.mode
  case orbit =>
    have hc := horbit hm
    unfold orbitConsistent at hc
    rw [update_eq_update_orbit c 0 0 dt hm hprog]
    unfold Camera.update_orbit Camera.update_position
    dsimp only
    refine ⟨?_, rfl, rfl, rfl⟩
    rw [hc, hclip, show c.yaw + 0 * c.config.mouse_sensitivity = c.yaw by ring]
  case free =>
    have hc := hfree hm
    unfold freeConsistent at hc
    rw [update_eq_update_free c 0 0 dt hm hprog]
    unfold Camera.update_free
    dsimp only
    refine ⟨rfl, ?_, rfl, rfl⟩
    rw [hc]
    unfold Camera.get_forward_vector
    dsimp only
    rw [hclip, show c.yaw - 0 * c.config.mouse_sensitivity = c.yaw by ring]

/-- Witness for C3 at the freshly initialised camera with `dt = 1`. -/
theorem update_noop_after_transition_witness :
    ((Camera.init cfg0).update 0 0 1).position = (Camera.init cfg0).position := by
  have hpi := Real.pi_gt_three
  refine (update_noop_after_transition (Camera.init cfg0) 1 le_rfl (by norm_num)
    (by show -(Real.pi / 2) + 0.1 ≤ (0 : ℝ); linarith)
    (by show (0 : ℝ) ≤ Real.pi / 2 - 0.1; linarith)
    (fun _ => ?_) (fun h => Mode.noConfusion h)).1
  show (⟨0, 0, (30 : ℝ)⟩ : Vec3)
    = ⟨(30 : ℝ) * Real.cos 0 * Real.sin 0, 30 * Real.sin 0,
       30 * Real.cos 0 * Real.cos 0⟩
  simp
